import Mathlib

/-!
Shallow embedding of the broadcast distribution engine of the repository
(`src/backend/src/posts/posting.service.ts`, `src/backend/src/sessions/sessions.service.ts`,
`src/backend/src/telegram/telegram.service.ts`, and the cron scheduler in
`src/unnamed/part_004`), together with theorems settling the frozen claims
about the natural-language specification.

Timestamps are modelled as natural numbers (milliseconds since the epoch,
matching `Date.now()`), database/in-memory collections as Lean lists, and
nullable fields as `Option`.
-/

namespace Reklama

/-! ## Anti-spam configuration constants (posting.service.ts, lines 56-82) -/

/-- `MIN_GROUP_DELAY_MS = 5_000`. -/
def MIN_GROUP_DELAY_MS : Nat := 5000

/-- `MAX_GROUP_DELAY_MS = 20_000`. -/
def MAX_GROUP_DELAY_MS : Nat := 20000

/-- `ROUND_PAUSE_MS = 15 * 60 * 1000`. -/
def ROUND_PAUSE_MS : Nat := 15 * 60 * 1000

/-- `SESSION_MESSAGE_LIMIT = 30`. -/
def SESSION_MESSAGE_LIMIT : Nat := 30

/-- `SESSION_COOLDOWN_MS = 5 * 60 * 1000`. -/
def SESSION_COOLDOWN_MS : Nat := 5 * 60 * 1000

/-- `MAX_FLOOD_PER_SESSION = 3`. -/
def MAX_FLOOD_PER_SESSION : Nat := 3

/-- `FLOOD_FREEZE_MS = 30 * 60 * 1000`. -/
def FLOOD_FREEZE_MS : Nat := 30 * 60 * 1000

/-- `MAX_CONSECUTIVE_ERRORS = 5`. -/
def MAX_CONSECUTIVE_ERRORS : Nat := 5

/-- `GROUP_COOLDOWN_MS = 10 * 60 * 1000`. -/
def GROUP_COOLDOWN_MS : Nat := 10 * 60 * 1000

/-- `LONG_PAUSE_INTERVAL = 10`. -/
def LONG_PAUSE_INTERVAL : Nat := 10

/-! ## Per-session rate state (posting.service.ts, interface SessionFloodState) -/

/-- `SessionFloodState` of posting.service.ts: per-session anti-throttle counters. -/
structure SessionFloodState where
  floodCount : Nat
  lastFloodAt : Option Nat
  messagesSent : Nat
  cooldownUntil : Option Nat
  consecutiveErrors : Nat
deriving Repr, DecidableEq

/-- The state installed by `getSessionState` for a fresh session id. -/
def initFloodState : SessionFloodState :=
  { floodCount := 0, lastFloodAt := none, messagesSent := 0,
    cooldownUntil := none, consecutiveErrors := 0 }

/-- `isSessionCoolingDown` (posting.service.ts lines 111-122): returns whether the
session is cooling down; when the cooldown has elapsed it is lazily cleared and
`messagesSent` zeroed.  The state is returned alongside the boolean because the
check mutates it. -/
def isSessionCoolingDown (now : Nat) (st : SessionFloodState) :
    Bool × SessionFloodState :=
  match st.cooldownUntil with
  | some t =>
      if now < t then (true, st)
      else (false, { st with cooldownUntil := none, messagesSent := 0 })
  | none => (false, st)

/-- `recordSuccess` (posting.service.ts lines 124-138): bump `messagesSent`, clear
`consecutiveErrors`; on reaching `SESSION_MESSAGE_LIMIT` arm a cooldown of
`SESSION_COOLDOWN_MS` and zero `messagesSent`. -/
def recordSuccess (now : Nat) (st : SessionFloodState) : SessionFloodState :=
  let st1 := { st with messagesSent := st.messagesSent + 1, consecutiveErrors := 0 }
  if SESSION_MESSAGE_LIMIT ≤ st1.messagesSent then
    { st1 with cooldownUntil := some (now + SESSION_COOLDOWN_MS), messagesSent := 0 }
  else st1

/-- `recordFlood` (posting.service.ts lines 140-159): bump `floodCount`,
`lastFloodAt` and `consecutiveErrors`; once `floodCount` reaches
`MAX_FLOOD_PER_SESSION`, arm a cooldown of `FLOOD_FREEZE_MS`. -/
def recordFlood (now : Nat) (st : SessionFloodState) : SessionFloodState :=
  let st1 :=
    { st with
      floodCount := st.floodCount + 1
      lastFloodAt := some now
      consecutiveErrors := st.consecutiveErrors + 1 }
  if MAX_FLOOD_PER_SESSION ≤ st1.floodCount then
    { st1 with cooldownUntil := some (now + FLOOD_FREEZE_MS) }
  else st1

/-- `recordError` (posting.service.ts lines 161-173): bump `consecutiveErrors`;
on reaching `MAX_CONSECUTIVE_ERRORS`, arm a 5-minute cooldown and reset the
error counter. -/
def recordError (now : Nat) (st : SessionFloodState) : SessionFloodState :=
  let st1 := { st with consecutiveErrors := st.consecutiveErrors + 1 }
  if MAX_CONSECUTIVE_ERRORS ≤ st1.consecutiveErrors then
    { st1 with cooldownUntil := some (now + 5 * 60 * 1000), consecutiveErrors := 0 }
  else st1

/-! ## Group info and log entries (posting.service.ts, interfaces GroupInfo / PostingLog) -/

/-- `GroupInfo` of posting.service.ts. -/
structure GroupInfo where
  id : String
  telegramId : String
  name : String
  sessionId : String
  sessionName : String
  lastPostAt : Option Nat
deriving Repr, DecidableEq

/-- `PostingLog` of posting.service.ts.  `status` is one of
`"success"`, `"failed"`, `"skipped"`. -/
structure PostingLog where
  timestamp : Nat
  sessionId : String
  sessionName : String
  groupName : String
  groupId : String
  status : String
  reason : Option String
  duration : Option Nat
deriving Repr, DecidableEq

/-- The log entry built in the `FLOOD_WAIT` branch of `postToGroup`
(posting.service.ts lines 555-567): status `failed`, reason
`FLOOD_WAIT ${waitSeconds}s`. -/
def floodWaitLog (now started : Nat) (g : GroupInfo) (waitSeconds : Nat) : PostingLog :=
  { timestamp := now, sessionId := g.sessionId, sessionName := g.sessionName,
    groupName := g.name, groupId := g.id, status := "failed",
    reason := some ("FLOOD_WAIT " ++ Nat.repr waitSeconds ++ "s"),
    duration := some (now - started) }

/-- The `FLOOD_WAIT` branch of `postToGroup` (posting.service.ts lines 538-568)
for one session state: first `recordFlood`; if `waitSeconds ≤ 60` the driver
sleeps `waitSeconds * 1000` ms inline (returned as the middle component),
otherwise `cooldownUntil` is overwritten with `now + waitSeconds * 1000`.
Returns the new state, the inline sleep in milliseconds, and the log entry. -/
def handleFloodWait (now started : Nat) (g : GroupInfo) (waitSeconds : Nat)
    (st : SessionFloodState) : SessionFloodState × Nat × PostingLog :=
  let st1 := recordFlood now st
  if waitSeconds ≤ 60 then
    (st1, waitSeconds * 1000, floodWaitLog now started g waitSeconds)
  else
    ({ st1 with cooldownUntil := some (now + waitSeconds * 1000) }, 0,
      floodWaitLog now started g waitSeconds)

/-- The `FLOOD_WAIT` branch lifted to the `sessionStates` map of the service:
only the entry of `g.sessionId` is touched. -/
def handleFloodWaitStates (now started : Nat) (g : GroupInfo) (waitSeconds : Nat)
    (states : String → SessionFloodState) :
    (String → SessionFloodState) × Nat × PostingLog :=
  let r := handleFloodWait now started g waitSeconds (states g.sessionId)
  (fun s => if s = g.sessionId then r.1 else states s, r.2.1, r.2.2)

/-! ## Jobs (posting.service.ts, interface PostingJob and job management) -/

/-- `PostingJob` of posting.service.ts.  `status` is one of `"running"`,
`"paused"`, `"stopped"`, `"completed"`. -/
structure PostingJob where
  id : String
  adId : String
  adContent : String
  userId : String
  status : String
  startTime : Nat
  endTime : Option Nat
  totalGroups : Nat
  postedGroups : Nat
  failedGroups : Nat
  skippedGroups : Nat
  roundsCompleted : Nat
  logs : List PostingLog
  stopRequested : Bool
  pauseRequested : Bool
deriving Repr, DecidableEq

/-- The in-memory `activeJobs` map, modelled as an association list keyed by job id. -/
abbrev JobRegistry := List (String × PostingJob)

/-- `activeJobs.get(jobId)` — lookup in the registry. -/
def lookupJob (reg : JobRegistry) (jobId : String) : Option PostingJob :=
  (List.find? (fun p => p.1 = jobId) reg).map (fun p => p.2)

/-- `stopJob` (posting.service.ts lines 726-732): set `stopRequested := true` on
the job with the given id, if registered. -/
def stopJobReg (reg : JobRegistry) (jobId : String) : JobRegistry :=
  List.map (fun p => if p.1 = jobId then (p.1, { p.2 with stopRequested := true }) else p) reg

/-- Every primitive write the engine performs on a `PostingJob` after its
creation, each transcribed from posting.service.ts: `requestStop` (line 729),
`requestPause` (lines 736-738), `requestResume` (lines 745-747), `markStopped`
(lines 291-293 and 310-312), `markPaused` (line 299), `incPosted`/`incFailed`/
`incSkipped` (lines 410, 425, 441, 448), `incRounds` (line 377), `pushLog`
(lines 411, 426, 450) and `trimLogs` (lines 453-455). -/
inductive JobMutation where
  | requestStop : JobMutation
  | requestPause : JobMutation
  | requestResume : JobMutation
  | markStopped : Nat → JobMutation
  | markPaused : JobMutation
  | incPosted : JobMutation
  | incFailed : JobMutation
  | incSkipped : JobMutation
  | incRounds : JobMutation
  | pushLog : PostingLog → JobMutation
  | trimLogs : JobMutation
deriving Repr, DecidableEq

/-- Apply one engine write to a job (see `JobMutation`). -/
def applyMutation (j : PostingJob) (m : JobMutation) : PostingJob :=
  match m with
  | .requestStop => { j with stopRequested := true }
  | .requestPause => { j with pauseRequested := true, status := "paused" }
  | .requestResume => { j with pauseRequested := false, status := "running" }
  | .markStopped t => { j with status := "stopped", endTime := some t }
  | .markPaused => { j with status := "paused" }
  | .incPosted => { j with postedGroups := j.postedGroups + 1 }
  | .incFailed => { j with failedGroups := j.failedGroups + 1 }
  | .incSkipped => { j with skippedGroups := j.skippedGroups + 1 }
  | .incRounds => { j with roundsCompleted := j.roundsCompleted + 1 }
  | .pushLog e => { j with logs := j.logs ++ [e] }
  | .trimLogs =>
      if 500 < j.logs.length then
        { j with logs := j.logs.drop (j.logs.length - 300) }
      else j

/-- The log-append step of `postSessionGroups` (posting.service.ts lines
450-455): push the entry, then, if the list now exceeds 500 entries, keep only
the last 300 (`job.logs = job.logs.slice(-300)`). -/
def appendLog (logs : List PostingLog) (e : PostingLog) : List PostingLog :=
  let pushed := logs ++ [e]
  if 500 < pushed.length then pushed.drop (pushed.length - 300) else pushed

/-- The stop check at the head of the round loop (posting.service.ts lines
291-295 and 310-313): when `stopRequested` is observed, the loop marks the job
stopped, records `endTime`, and terminates (`some`); otherwise the loop
continues (`none`). -/
def loopStopCheck (j : PostingJob) (now : Nat) : Option PostingJob :=
  if j.stopRequested then some (applyMutation j (.markStopped now)) else none

/-- The iteration structure of a session driver (`postSessionGroups`,
posting.service.ts lines 395-404): iteration `i` runs only if `stopRequested`
was not observed at its head (`if (job.stopRequested) break`); the result is
the list of iteration indices that get past that check (each such iteration is
the only place a send for its group may be attempted).  `stopAt i` is the value
of `job.stopRequested` read at the head of iteration `i`; the source re-checks
the flag after the pause-wait and before the inter-group delay, which can only
stop the driver earlier. -/
def driverRunIndices (stopAt : Nat → Bool) : List GroupInfo → Nat → List Nat
  | [], _ => []
  | _ :: gs, i => if stopAt i then [] else i :: driverRunIndices stopAt gs (i + 1)

/-- `getJobStats` return record (posting.service.ts lines 757-765), with the
success rate as a rational number. -/
structure JobStats where
  totalGroups : Nat
  postedGroups : Nat
  failedGroups : Nat
  skippedGroups : Nat
  roundsCompleted : Nat
  duration : Nat
  successRate : ℚ
deriving Repr, DecidableEq

/-- `getJobStats` (posting.service.ts lines 757-784): `undefined` for an
unregistered id; otherwise the counters, the duration, and
`successRate = totalAttempts > 0 ? postedGroups / totalAttempts * 100 : 0`
where `totalAttempts = postedGroups + failedGroups`. -/
def getJobStats (reg : JobRegistry) (jobId : String) (now : Nat) : Option JobStats :=
  (lookupJob reg jobId).map (fun j =>
    let duration := match j.endTime with
      | some t => t - j.startTime
      | none => now - j.startTime
    let totalAttempts := j.postedGroups + j.failedGroups
    { totalGroups := j.totalGroups
      postedGroups := j.postedGroups
      failedGroups := j.failedGroups
      skippedGroups := j.skippedGroups
      roundsCompleted := j.roundsCompleted
      duration := duration
      successRate :=
        if 0 < totalAttempts then
          ((j.postedGroups : ℚ) / ((totalAttempts : Nat) : ℚ)) * 100
        else 0 })

/-! ## startPosting (posting.service.ts, lines 185-281) -/

/-- A `Group` row as read (and filtered) by the `startPosting` query `include`. -/
structure DbGroup where
  id : String
  telegramId : String
  title : Option String
  isActive : Bool
  isSkipped : Bool
  lastPostAt : Option Nat
deriving Repr, DecidableEq

/-- A `Session` row as read by the `startPosting` query, together with its
(unfiltered) groups. -/
structure DbSession where
  id : String
  userId : String
  status : String
  isFrozen : Bool
  sessionString : Option String
  name : Option String
  phone : Option String
  groups : List DbGroup
deriving Repr, DecidableEq

/-- JavaScript `a || d` on an optional string: `d` when `a` is null or the
empty string (both falsy). -/
def orFalsy (a : Option String) (d : String) : String :=
  match a with
  | some t => if t = "" then d else t
  | none => d

/-- Construction of a `GroupInfo` in `startPosting` (lines 230-237):
`name = group.title || 'Nomsiz'`, `sessionName = session.name || session.phone
|| 'Session'`. -/
def toGroupInfo (s : DbSession) (g : DbGroup) : GroupInfo :=
  { id := g.id, telegramId := g.telegramId, name := orFalsy g.title "Nomsiz",
    sessionId := s.id, sessionName := orFalsy s.name (orFalsy s.phone "Session"),
    lastPostAt := g.lastPostAt }

/-- The three failure exits of `startPosting`: `noActiveSession` is the throw
`Faol session topilmadi` (line 204, the eligible-session query is empty),
`noSessionConnected` the throw `Hech bir session ulanmadi` (line 223), and
`noDeliverableGroup` the throw `... guruhlar topilmadi` (lines 242-245).  The
spec's error taxonomy (§7) calls the first two `NoUsableSession`. -/
inductive StartError where
  | noActiveSession : StartError
  | noSessionConnected : StartError
  | noDeliverableGroup : StartError
deriving Repr, DecidableEq

/-- Whether a failure exit is a `NoUsableSession` in the spec's taxonomy. -/
def StartError.isNoUsableSession : StartError → Bool
  | .noActiveSession => true
  | .noSessionConnected => true
  | .noDeliverableGroup => false

/-- The eligibility filter of the `startPosting` session query (lines 186-192):
`userId`, `status = 'ACTIVE'`, `isFrozen = false`, `sessionString` non-null. -/
def eligibleSession (userId : String) (s : DbSession) : Bool :=
  s.userId == userId && s.status == "ACTIVE" && !s.isFrozen && !s.sessionString.isNone

/-- The group filter of the query `include` (lines 194-199):
`isActive` and not `isSkipped`. -/
def deliverableGroup (g : DbGroup) : Bool :=
  g.isActive && !g.isSkipped

/-- The sessions surviving the connect phase of `startPosting` (lines
207-220): eligible sessions that are connected after the lazy connect
attempts (`connected s` is `isClientConnected(s.id)` after a `connectSession`
try). -/
def connectedSessionsOf (table : List DbSession) (userId : String)
    (connected : String → Bool) : List DbSession :=
  (table.filter (eligibleSession userId)).filter (fun s => connected s.id)

/-- The group collection of `startPosting` (lines 227-239): every deliverable
group of every surviving session, as `GroupInfo`. -/
def collectGroups (sessions : List DbSession) : List GroupInfo :=
  (sessions.map (fun s => (s.groups.filter deliverableGroup).map (toGroupInfo s))).flatten

/-- `startPosting` (posting.service.ts lines 185-281).  `jobId` stands for the
generated id of line 248, `now` for `Date.now()`.  Returns the result and the
(possibly extended) job registry: the job is registered only on success. -/
def startPosting (table : List DbSession) (userId adId adContent : String)
    (connected : String → Bool) (jobId : String) (now : Nat) (reg : JobRegistry) :
    Except StartError PostingJob × JobRegistry :=
  let sessions := table.filter (eligibleSession userId)
  if sessions.isEmpty then (.error .noActiveSession, reg)
  else
    let connectedSessions := connectedSessionsOf table userId connected
    if connectedSessions.isEmpty then (.error .noSessionConnected, reg)
    else
      let allGroups := collectGroups connectedSessions
      if allGroups.isEmpty then (.error .noDeliverableGroup, reg)
      else
        let job : PostingJob :=
          { id := jobId, adId := adId, adContent := adContent, userId := userId,
            status := "running", startTime := now, endTime := none,
            totalGroups := allGroups.length, postedGroups := 0, failedGroups := 0,
            skippedGroups := 0, roundsCompleted := 0, logs := [],
            stopRequested := false, pauseRequested := false }
        (.ok job, reg ++ [(jobId, job)])

/-! ## Frozen-session thaw (sessions.service.ts, lines 463-483) -/

/-- The `Session` row fields touched or tested by `cleanupFrozenSessions`. -/
structure SessionRow where
  id : String
  status : String
  isFrozen : Bool
  frozenAt : Option Nat
  unfreezeAt : Option Nat
deriving Repr, DecidableEq

/-- Milliseconds in a day. -/
def dayMs : Nat := 24 * 60 * 60 * 1000

/-- The `updateMany` `where` of `cleanupFrozenSessions`:
`isFrozen = true ∧ frozenAt ≤ cutoff` (a null `frozenAt` never matches `lte`). -/
def frozenMatches (cutoff : Nat) (s : SessionRow) : Bool :=
  s.isFrozen && (match s.frozenAt with
    | some t => decide (t ≤ cutoff)
    | none => false)

/-- `cleanupFrozenSessions` (sessions.service.ts lines 463-483), invoked daily
with `olderThanDays = 7` by `handleFrozenSessions` (src/unnamed/part_004 lines
131-141): every session with `isFrozen ∧ frozenAt ≤ now − olderThanDays` days
gets `isFrozen := false`, `frozenAt := null`, `unfreezeAt := null`; no other
field is written.  Returns the new rows and the matched count. -/
def cleanupFrozenSessions (now olderThanDays : Nat) (rows : List SessionRow) :
    List SessionRow × Nat :=
  let cutoff := now - olderThanDays * dayMs
  (rows.map (fun s =>
      if frozenMatches cutoff s then
        { s with isFrozen := false, frozenAt := none, unfreezeAt := none }
      else s),
    (rows.filter (frozenMatches cutoff)).length)

/-! ## Priority-group recompute (sessions.service.ts, lines 423-458) -/

/-- The `Group` row fields touched or tested by `recalculatePriorityGroups`. -/
structure GroupRow where
  id : String
  isActive : Bool
  isSkipped : Bool
  isPriority : Bool
  priorityOrder : Option Nat
  activityScore : Int
  memberCount : Int
deriving Repr, DecidableEq

/-- The `orderBy [activityScore desc, memberCount desc]` relation: `a` comes no
later than `b`. -/
def priorityGE (a b : GroupRow) : Prop :=
  b.activityScore < a.activityScore ∨
    (a.activityScore = b.activityScore ∧ b.memberCount ≤ a.memberCount)

instance : DecidableRel priorityGE := fun a b => by
  unfold priorityGE; infer_instance

instance : IsTotal GroupRow priorityGE where
  total a b := by
    unfold priorityGE
    rcases lt_trichotomy a.activityScore b.activityScore with h | h | h
    · exact Or.inr (Or.inl h)
    · rcases le_total b.memberCount a.memberCount with h2 | h2
      · exact Or.inl (Or.inr ⟨h, h2⟩)
      · exact Or.inr (Or.inr ⟨h.symm, h2⟩)
    · exact Or.inl (Or.inl h)

instance : IsTrans GroupRow priorityGE where
  trans a b c hab hbc := by
    unfold priorityGE at *
    rcases hab with h1 | ⟨h1, h1m⟩
    · rcases hbc with h2 | ⟨h2, _⟩
      · exact Or.inl (h2.trans h1)
      · exact Or.inl (h2 ▸ h1)
    · rcases hbc with h2 | ⟨h2, h2m⟩
      · exact Or.inl (h1 ▸ h2)
      · exact Or.inr ⟨h1.trans h2, h2m.trans h1m⟩

/-- The `findMany` of `recalculatePriorityGroups` (lines 431-442): the active,
unskipped groups of the session ordered by `(activityScore desc, memberCount
desc)`, limited to the top 50. -/
def topGroups (gs : List GroupRow) : List GroupRow :=
  (List.insertionSort priorityGE
    (gs.filter (fun g => g.isActive && !g.isSkipped))).take 50

/-- The demotion applied to one row by the initial `updateMany` of
`recalculatePriorityGroups` (lines 425-428). -/
def demoteOne (g : GroupRow) : GroupRow :=
  { g with isPriority := false, priorityOrder := none }

/-- The initial `updateMany` of `recalculatePriorityGroups` (lines 425-428):
remove priority from all groups of the session. -/
def demoteAll (gs : List GroupRow) : List GroupRow :=
  gs.map demoteOne

/-- One by-id `update` of the promotion loop (lines 446-453). -/
def updateById (gs : List GroupRow) (gid : String) (ord : Nat) : List GroupRow :=
  gs.map (fun g =>
    if g.id = gid then { g with isPriority := true, priorityOrder := some ord } else g)

/-- The promotion loop: `topGroups.map((group, index) => update(group.id,
index + 1))` applied in sequence starting at index `i`. -/
def promoteTop (acc : List GroupRow) : List GroupRow → Nat → List GroupRow
  | [], _ => acc
  | t :: ts, i => promoteTop (updateById acc t.id (i + 1)) ts (i + 1)

/-- `recalculatePriorityGroups` (sessions.service.ts lines 423-458) on the
session's group rows: demote everything, then promote the top 50 active,
unskipped groups with `priorityOrder = 1..`. -/
def recalculatePriorityGroups (gs : List GroupRow) : List GroupRow :=
  promoteTop (demoteAll gs) (topGroups gs) 0

/-- Rank (0-based position of the first row with the given id) in a list of
group rows; a specification device for reasoning about the promotion loop. -/
def rankIn (gid : String) : List GroupRow → Option Nat
  | [] => none
  | t :: ts => if t.id = gid then some 0 else (rankIn gid ts).map (fun k => k + 1)

/-- The pointwise effect of the promotion loop on one row, given the ranked
top list and the starting index: promoted iff the row's id is ranked. -/
def promoteAssign (top : List GroupRow) (i : Nat) (g : GroupRow) : GroupRow :=
  match rankIn g.id top with
  | some k => { g with isPriority := true, priorityOrder := some (i + k + 1) }
  | none => g

/-! ## Group synchronisation (telegram.service.ts, lines 708-796) -/

/-- A group snapshot as assembled from the dialog list (lines 716-748). -/
structure GroupSnap where
  telegramId : String
  title : String
  username : Option String
  kind : String
  memberCount : Option Int
deriving Repr, DecidableEq

/-- A stored `Group` row of the session, as inserted by `syncGroups`. -/
structure StoredGroup where
  telegramId : String
  title : String
  username : Option String
  kind : String
  memberCount : Option Int
deriving Repr, DecidableEq

/-- The row built for `createMany` (lines 763-770). -/
def snapToRow (g : GroupSnap) : StoredGroup :=
  { telegramId := g.telegramId, title := g.title, username := g.username,
    kind := g.kind, memberCount := g.memberCount }

/-- `createMany` with `skipDuplicates: true` on the unique
`(sessionId, telegramId)` key, for a fixed session: a row is skipped when its
`telegramId` already exists, among earlier rows of the batch included. -/
def createManySkipDup (stored : List StoredGroup) (rows : List StoredGroup) :
    List StoredGroup :=
  rows.foldl
    (fun acc r =>
      if (acc.map (fun g => g.telegramId)).contains r.telegramId then acc
      else acc ++ [r])
    stored

/-- `syncGroups` (telegram.service.ts lines 708-796) restricted to its effect
on the session's stored `Group` set: snapshots whose `telegramId` is not yet
stored are bulk-inserted with `skipDuplicates`; existing rows are never
rewritten. -/
def syncGroupsStored (stored : List StoredGroup) (snaps : List GroupSnap) :
    List StoredGroup :=
  let existingIds := stored.map (fun g => g.telegramId)
  let newGroups := snaps.filter (fun g => !existingIds.contains g.telegramId)
  if newGroups.isEmpty then stored
  else createManySkipDup stored (newGroups.map snapToRow)

/-! ## Theorems -/

/-- C4: on every successful send the session's `messagesSent` is incremented
and `consecutiveErrors` reset to 0; when the incremented count reaches
`SESSION_MESSAGE_LIMIT` (30), a cooldown of `SESSION_COOLDOWN_MS` (5 min) is
armed and `messagesSent` is reset to 0; otherwise no cooldown is armed and the
other counters are untouched. -/
theorem recordSuccess_spec (now : Nat) (st : SessionFloodState) :
    (recordSuccess now st).consecutiveErrors = 0 ∧
    (SESSION_MESSAGE_LIMIT ≤ st.messagesSent + 1 →
      (recordSuccess now st).cooldownUntil = some (now + SESSION_COOLDOWN_MS) ∧
      (recordSuccess now st).messagesSent = 0) ∧
    (st.messagesSent + 1 < SESSION_MESSAGE_LIMIT →
      (recordSuccess now st).messagesSent = st.messagesSent + 1 ∧
      (recordSuccess now st).cooldownUntil = st.cooldownUntil ∧
      (recordSuccess now st).floodCount = st.floodCount ∧
      (recordSuccess now st).lastFloodAt = st.lastFloodAt) := by
  by_cases h : SESSION_MESSAGE_LIMIT ≤ st.messagesSent + 1
  · refine ⟨by simp [recordSuccess, h], fun _ => ⟨by simp [recordSuccess, h], by simp [recordSuccess, h]⟩, fun hlt => absurd h (by omega)⟩
  · refine ⟨by simp [recordSuccess, h], fun h2 => absurd h2 h, fun _ => ⟨by simp [recordSuccess, h], by simp [recordSuccess, h], by simp [recordSuccess, h], by simp [recordSuccess, h]⟩⟩

/-- Witness for `recordSuccess_spec`: at 29 prior messages the 30th send arms
the cooldown and resets the counter; at 3 prior messages the count just
increments. -/
theorem recordSuccess_spec_witness :
    (recordSuccess 100 { initFloodState with messagesSent := 29, consecutiveErrors := 2 }).cooldownUntil
        = some (100 + SESSION_COOLDOWN_MS) ∧
    (recordSuccess 100 { initFloodState with messagesSent := 3 }).messagesSent = 4 :=
  ⟨((recordSuccess_spec 100 _).2.1 (by decide)).1,
   ((recordSuccess_spec 100 _).2.2 (by decide)).1⟩

/-- C7: the log-append step leaves at most 500 entries, and whenever the trim
fires (the pushed list exceeds 500) exactly the 300 most recent entries are
retained, in their original append order (the result is the length-300 suffix
of the pushed list). -/
theorem appendLog_spec (logs : List PostingLog) (e : PostingLog) :
    (appendLog logs e).length ≤ 500 ∧
    (500 < logs.length + 1 →
      (appendLog logs e).length = 300 ∧ (appendLog logs e) <:+ (logs ++ [e])) := by
  have hlen : (logs ++ [e]).length = logs.length + 1 := by simp
  constructor
  · simp only [appendLog]
    by_cases h : 500 < (logs ++ [e]).length
    · rw [if_pos h, List.length_drop]
      omega
    · rw [if_neg h]
      omega
  · intro h
    have hc : 500 < (logs ++ [e]).length := by omega
    refine ⟨?_, ?_⟩
    · simp only [appendLog]
      rw [if_pos hc, List.length_drop]
      omega
    · simp only [appendLog]
      rw [if_pos hc]
      exact List.drop_suffix _ _

/-- Witness for `appendLog_spec`: appending to a 500-entry log trims to 300. -/
theorem appendLog_spec_witness :
    (appendLog
      (List.replicate 500
        { timestamp := 0, sessionId := "s", sessionName := "S", groupName := "G",
          groupId := "g", status := "success", reason := none, duration := none })
      { timestamp := 1, sessionId := "s", sessionName := "S", groupName := "G",
        groupId := "g", status := "failed", reason := none, duration := none }).length = 300 :=
  ((appendLog_spec _ _).2 (by rw [List.length_replicate]; omega)).1

/-- Evaluation of `getJobStats` at a registered job. -/
theorem getJobStats_eq (reg : JobRegistry) (jobId : String) (now : Nat) (j : PostingJob)
    (hj : lookupJob reg jobId = some j) :
    getJobStats reg jobId now = some
      { totalGroups := j.totalGroups
        postedGroups := j.postedGroups
        failedGroups := j.failedGroups
        skippedGroups := j.skippedGroups
        roundsCompleted := j.roundsCompleted
        duration := match j.endTime with
          | some t => t - j.startTime
          | none => now - j.startTime
        successRate :=
          if 0 < j.postedGroups + j.failedGroups then
            ((j.postedGroups : ℚ) / (((j.postedGroups + j.failedGroups : Nat)) : ℚ)) * 100
          else 0 } := by
  unfold getJobStats
  rw [hj]
  rfl

/-- C10: `getJobStats` returns no stats for an unregistered job id; for a
registered job its `successRate` is 0 when `postedGroups + failedGroups = 0`
and `postedGroups / (postedGroups + failedGroups) × 100` otherwise, and it
always lies in `[0, 100]`. -/
theorem getJobStats_spec (reg : JobRegistry) (jobId : String) (now : Nat) :
    (lookupJob reg jobId = none → getJobStats reg jobId now = none) ∧
    (∀ j, lookupJob reg jobId = some j →
      ∃ s, getJobStats reg jobId now = some s ∧
        (j.postedGroups + j.failedGroups = 0 → s.successRate = 0) ∧
        (0 < j.postedGroups + j.failedGroups →
          s.successRate =
            ((j.postedGroups : ℚ) / (((j.postedGroups + j.failedGroups : Nat)) : ℚ)) * 100) ∧
        0 ≤ s.successRate ∧ s.successRate ≤ 100) := by
  constructor
  · intro h
    simp [getJobStats, h]
  · intro j hj
    refine ⟨_, getJobStats_eq reg jobId now j hj, ?_, ?_, ?_, ?_⟩
    · intro h0
      simp [h0]
    · intro hpos
      simp only [hpos, if_pos]
    · by_cases hpos : 0 < j.postedGroups + j.failedGroups
      · simp only [hpos, if_pos]
        positivity
      · simp [hpos]
    · by_cases hpos : 0 < j.postedGroups + j.failedGroups
      · simp only [hpos, if_pos]
        have hle : ((j.postedGroups : ℚ) / (((j.postedGroups + j.failedGroups : Nat)) : ℚ)) ≤ 1 := by
          rw [div_le_one (by exact_mod_cast hpos)]
          exact_mod_cast Nat.le_add_right _ _
        calc ((j.postedGroups : ℚ) / (((j.postedGroups + j.failedGroups : Nat)) : ℚ)) * 100
            ≤ 1 * 100 := by
              apply mul_le_mul_of_nonneg_right hle
              norm_num
          _ = 100 := by norm_num
      · simp [hpos]

/-- Witness for `getJobStats_spec`: a registered job with 3 posted and 1 failed
gets rate 75; an unregistered id gets none. -/
theorem getJobStats_spec_witness :
    getJobStats [] "missing" 0 = none ∧
    ∃ s, getJobStats
        [("j1",
          { id := "j1", adId := "a", adContent := "c", userId := "u", status := "running",
            startTime := 0, endTime := none, totalGroups := 4, postedGroups := 3,
            failedGroups := 1, skippedGroups := 0, roundsCompleted := 1, logs := [],
            stopRequested := false, pauseRequested := false })] "j1" 10 = some s ∧
      s.successRate = 75 := by
  constructor
  · exact (getJobStats_spec [] "missing" 0).1 (by simp [lookupJob])
  · obtain ⟨s, hs, _, hpos, _, _⟩ :=
      (getJobStats_spec
        [("j1",
          { id := "j1", adId := "a", adContent := "c", userId := "u", status := "running",
            startTime := 0, endTime := none, totalGroups := 4, postedGroups := 3,
            failedGroups := 1, skippedGroups := 0, roundsCompleted := 1, logs := [],
            stopRequested := false, pauseRequested := false })] "j1" 10).2
        { id := "j1", adId := "a", adContent := "c", userId := "u", status := "running",
          startTime := 0, endTime := none, totalGroups := 4, postedGroups := 3,
          failedGroups := 1, skippedGroups := 0, roundsCompleted := 1, logs := [],
          stopRequested := false, pauseRequested := false } (by simp [lookupJob])
    refine ⟨s, hs, ?_⟩
    rw [hpos (by decide)]
    norm_num

/-- C1 counterexample: the third flood signal, arriving as `FLOOD_WAIT 120`,
leaves `floodCount = 3 ≥ MAX_FLOOD_PER_SESSION` but `cooldownUntil =
tLastFlood + 120 s`, strictly below `tLastFlood + FLOOD_FREEZE_MS`: the
`waitSeconds > 60` branch of `postToGroup` overwrites the freeze that
`recordFlood` had just armed. -/
theorem floodFreeze_counterexample :
    (handleFloodWait 1000 1000
        { id := "g1", telegramId := "t1", name := "G", sessionId := "s1",
          sessionName := "S", lastPostAt := none } 120
        { floodCount := 2, lastFloodAt := none, messagesSent := 0,
          cooldownUntil := none, consecutiveErrors := 0 }).1 =
      { floodCount := 3, lastFloodAt := some 1000, messagesSent := 0,
        cooldownUntil := some 121000, consecutiveErrors := 1 } ∧
    MAX_FLOOD_PER_SESSION ≤ 3 ∧ 121000 < 1000 + FLOOD_FREEZE_MS := by
  decide

/-- C1 (amended): after the full `FLOOD_WAIT` handling of a flood signal at
time `now`, if the session's `floodCount` has reached `MAX_FLOOD_PER_SESSION`,
then `lastFloodAt = now` and `cooldownUntil = now + FLOOD_FREEZE_MS` when the
wait is ≤ 60 s, but `cooldownUntil = now + N s` when `N > 60` — which is below
`now + FLOOD_FREEZE_MS` whenever `N < 1800`. -/
theorem handleFloodWait_freeze (now started : Nat) (g : GroupInfo) (N : Nat)
    (st : SessionFloodState)
    (h : MAX_FLOOD_PER_SESSION ≤ (handleFloodWait now started g N st).1.floodCount) :
    (handleFloodWait now started g N st).1.lastFloodAt = some now ∧
    (handleFloodWait now started g N st).1.cooldownUntil =
      some (now + if N ≤ 60 then FLOOD_FREEZE_MS else N * 1000) := by
  have hfc : (handleFloodWait now started g N st).1.floodCount = st.floodCount + 1 := by
    unfold handleFloodWait recordFlood
    by_cases h60 : N ≤ 60 <;>
      by_cases hm : MAX_FLOOD_PER_SESSION ≤ st.floodCount + 1 <;>
      simp [h60, hm]
  rw [hfc] at h
  by_cases h60 : N ≤ 60 <;>
    simp [handleFloodWait, recordFlood, h60, h]

/-- Witness for `handleFloodWait_freeze`: a third flood with a 10-second wait
arms the 30-minute freeze. -/
theorem handleFloodWait_freeze_witness :
    (handleFloodWait 500 500
        { id := "g1", telegramId := "t1", name := "G", sessionId := "s1",
          sessionName := "S", lastPostAt := none } 10
        { floodCount := 2, lastFloodAt := none, messagesSent := 0,
          cooldownUntil := none, consecutiveErrors := 0 }).1.cooldownUntil =
      some (500 + if 10 ≤ 60 then FLOOD_FREEZE_MS else 10 * 1000) :=
  (handleFloodWait_freeze 500 500
    { id := "g1", telegramId := "t1", name := "G", sessionId := "s1",
      sessionName := "S", lastPostAt := none } 10
    { floodCount := 2, lastFloodAt := none, messagesSent := 0,
      cooldownUntil := none, consecutiveErrors := 0 } (by decide)).2

/-- C3 counterexample: the failure log of a `FLOOD_WAIT 10` carries the reason
string `FLOOD_WAIT 10s` (with a unit suffix), not `FLOOD_WAIT 10` as the claim
states. -/
theorem floodWait_reason_counterexample :
    (handleFloodWait 5000 5000
        { id := "g1", telegramId := "t1", name := "G", sessionId := "s1",
          sessionName := "S", lastPostAt := none } 10
        { floodCount := 0, lastFloodAt := none, messagesSent := 0,
          cooldownUntil := none, consecutiveErrors := 0 }).2.2.reason =
      some "FLOOD_WAIT 10s" ∧
    some "FLOOD_WAIT 10s" ≠ some "FLOOD_WAIT 10" := by
  decide

/-- C3 (amended): on a `FLOOD_WAIT N` failure the session's `floodCount` and
`consecutiveErrors` are each incremented; if `N ≤ 60` the driver sleeps
`N` seconds inline and the branch arms no cooldown beyond what `recordFlood`
itself did; if `N > 60` the cooldown is set to `now + N` seconds; other
sessions' states are untouched; the attempt is logged as `failed` with reason
`FLOOD_WAIT Ns`. -/
theorem floodWait_branch_spec (now started : Nat) (g : GroupInfo) (N : Nat)
    (states : String → SessionFloodState) :
    ((handleFloodWaitStates now started g N states).1 g.sessionId).floodCount
        = (states g.sessionId).floodCount + 1 ∧
    ((handleFloodWaitStates now started g N states).1 g.sessionId).consecutiveErrors
        = (states g.sessionId).consecutiveErrors + 1 ∧
    (N ≤ 60 →
      ((handleFloodWaitStates now started g N states).1 g.sessionId).cooldownUntil
          = (recordFlood now (states g.sessionId)).cooldownUntil ∧
      (handleFloodWaitStates now started g N states).2.1 = N * 1000) ∧
    (60 < N →
      ((handleFloodWaitStates now started g N states).1 g.sessionId).cooldownUntil
          = some (now + N * 1000) ∧
      (handleFloodWaitStates now started g N states).2.1 = 0) ∧
    (∀ s, s ≠ g.sessionId → (handleFloodWaitStates now started g N states).1 s = states s) ∧
    (handleFloodWaitStates now started g N states).2.2.status = "failed" ∧
    (handleFloodWaitStates now started g N states).2.2.reason
        = some ("FLOOD_WAIT " ++ Nat.repr N ++ "s") := by
  have hother : ∀ s, s ≠ g.sessionId →
      (handleFloodWaitStates now started g N states).1 s = states s := by
    intro s hs
    simp [handleFloodWaitStates, hs]
  by_cases h60 : N ≤ 60 <;>
    by_cases hm : MAX_FLOOD_PER_SESSION ≤ (states g.sessionId).floodCount + 1 <;>
    refine ⟨?_, ?_, ?_, ?_, hother, ?_, ?_⟩ <;>
    simp [handleFloodWaitStates, handleFloodWait, recordFlood, floodWaitLog, h60, hm]

/-- Witness for `floodWait_branch_spec`: a 10-second flood sleeps 10 s inline;
a 120-second flood arms a 120-second cooldown; another session's state is
untouched. -/
theorem floodWait_branch_spec_witness :
    (handleFloodWaitStates 0 0
        { id := "g1", telegramId := "t1", name := "G", sessionId := "s1",
          sessionName := "S", lastPostAt := none } 10
        (fun _ => initFloodState)).2.1 = 10 * 1000 ∧
    ((handleFloodWaitStates 0 0
        { id := "g1", telegramId := "t1", name := "G", sessionId := "s1",
          sessionName := "S", lastPostAt := none } 120
        (fun _ => initFloodState)).1 "s1").cooldownUntil = some (0 + 120 * 1000) ∧
    (handleFloodWaitStates 0 0
        { id := "g1", telegramId := "t1", name := "G", sessionId := "s1",
          sessionName := "S", lastPostAt := none } 120
        (fun _ => initFloodState)).1 "other" = initFloodState :=
  ⟨((floodWait_branch_spec 0 0
      { id := "g1", telegramId := "t1", name := "G", sessionId := "s1",
        sessionName := "S", lastPostAt := none } 10
      (fun _ => initFloodState)).2.2.1 (by decide)).2,
   ((floodWait_branch_spec 0 0
      { id := "g1", telegramId := "t1", name := "G", sessionId := "s1",
        sessionName := "S", lastPostAt := none } 120
      (fun _ => initFloodState)).2.2.2.1 (by decide)).1,
   (floodWait_branch_spec 0 0
      { id := "g1", telegramId := "t1", name := "G", sessionId := "s1",
        sessionName := "S", lastPostAt := none } 120
      (fun _ => initFloodState)).2.2.2.2.1 "other" (by decide)⟩

/-- C2 (the code at the failing input): the daily thaw, run at day 10 with the
7-day window, clears the freeze of a session whose status is `BANNED` and
whose `frozenAt` is day 2 — the `updateMany` filter of
`cleanupFrozenSessions` does not exclude Banned sessions.  The `status` field
itself is not modified, but the Banned session is not left unchanged. -/
theorem cleanupFrozen_banned_thawed :
    cleanupFrozenSessions (10 * dayMs) 7
      [{ id := "s1", status := "BANNED", isFrozen := true,
         frozenAt := some (2 * dayMs), unfreezeAt := some (9 * dayMs) }] =
    ([{ id := "s1", status := "BANNED", isFrozen := false,
        frozenAt := none, unfreezeAt := none }], 1) := by
  decide

/-- C5: `startPosting` fails with a `NoUsableSession` error (one of the two
no-session throws) when no eligible session ends up connected, fails with
`noDeliverableGroup` when the surviving sessions contribute no active,
unskipped group — in either failure case the job registry is unchanged — and
on success registers and returns a running job whose `totalGroups` is the
number of collected groups and whose posted/failed/skipped counters are 0. -/
theorem startPosting_spec (table : List DbSession) (userId adId adContent : String)
    (connected : String → Bool) (jobId : String) (now : Nat) (reg : JobRegistry) :
    ((connectedSessionsOf table userId connected).isEmpty = true →
      ∃ e, startPosting table userId adId adContent connected jobId now reg
          = (.error e, reg) ∧ e.isNoUsableSession = true) ∧
    ((connectedSessionsOf table userId connected).isEmpty = false →
      (collectGroups (connectedSessionsOf table userId connected)).isEmpty = true →
      startPosting table userId adId adContent connected jobId now reg
        = (.error .noDeliverableGroup, reg)) ∧
    ((collectGroups (connectedSessionsOf table userId connected)).isEmpty = false →
      ∃ job, startPosting table userId adId adContent connected jobId now reg
          = (.ok job, reg ++ [(jobId, job)]) ∧
        job.status = "running" ∧
        job.totalGroups = (collectGroups (connectedSessionsOf table userId connected)).length ∧
        job.postedGroups = 0 ∧ job.failedGroups = 0 ∧ job.skippedGroups = 0) := by
  have hsub : (connectedSessionsOf table userId connected).isEmpty = false →
      (table.filter (eligibleSession userId)).isEmpty = false := by
    intro h
    by_contra hne
    have h1 : (table.filter (eligibleSession userId)).isEmpty = true := by
      cases hx : (table.filter (eligibleSession userId)).isEmpty
      · exact absurd hx hne
      · rfl
    rw [List.isEmpty_iff] at h1
    rw [connectedSessionsOf, h1] at h
    simp at h
  refine ⟨?_, ?_, ?_⟩
  · intro hcs
    by_cases h1 : (table.filter (eligibleSession userId)).isEmpty
    · exact ⟨.noActiveSession, by simp [startPosting, h1], rfl⟩
    · exact ⟨.noSessionConnected, by simp [startPosting, h1, hcs], rfl⟩
  · intro hcs hag
    have h1 := hsub hcs
    simp [startPosting, h1, hcs, hag]
  · intro hag
    have hcs : (connectedSessionsOf table userId connected).isEmpty = false := by
      by_contra hne
      have hx : (connectedSessionsOf table userId connected).isEmpty = true := by
        cases hy : (connectedSessionsOf table userId connected).isEmpty
        · exact absurd hy hne
        · rfl
      rw [List.isEmpty_iff] at hx
      rw [collectGroups, hx] at hag
      simp at hag
    have h1 := hsub hcs
    refine ⟨{ id := jobId, adId := adId, adContent := adContent, userId := userId,
              status := "running", startTime := now, endTime := none,
              totalGroups := (collectGroups (connectedSessionsOf table userId connected)).length,
              postedGroups := 0, failedGroups := 0, skippedGroups := 0, roundsCompleted := 0,
              logs := [], stopRequested := false, pauseRequested := false },
            by simp [startPosting, h1, hcs, hag], rfl, rfl, rfl, rfl, rfl⟩

/-- Witness for `startPosting_spec`: an empty session table fails with a
`NoUsableSession` error without registering a job; a connected session without
groups fails with `noDeliverableGroup`; a connected session with one active
group yields a running job with `totalGroups = 1` and zero counters. -/
theorem startPosting_spec_witness :
    (∃ e, startPosting [] "u" "a" "c" (fun _ => true) "j1" 0 []
        = (.error e, []) ∧ e.isNoUsableSession = true) ∧
    startPosting
        [{ id := "s1", userId := "u", status := "ACTIVE", isFrozen := false,
           sessionString := some "x", name := some "n", phone := none, groups := [] }]
        "u" "a" "c" (fun _ => true) "j1" 0 []
      = (.error .noDeliverableGroup, []) ∧
    (∃ job, startPosting
        [{ id := "s1", userId := "u", status := "ACTIVE", isFrozen := false,
           sessionString := some "x", name := some "n", phone := none,
           groups := [{ id := "g1", telegramId := "t1", title := some "G",
                        isActive := true, isSkipped := false, lastPostAt := none }] }]
        "u" "a" "c" (fun _ => true) "j1" 0 []
      = (.ok job, [("j1", job)]) ∧ job.totalGroups = 1 ∧ job.postedGroups = 0) := by
  refine ⟨?_, ?_, ?_⟩
  · exact (startPosting_spec [] "u" "a" "c" (fun _ => true) "j1" 0 []).1 (by decide)
  · exact (startPosting_spec
      [{ id := "s1", userId := "u", status := "ACTIVE", isFrozen := false,
         sessionString := some "x", name := some "n", phone := none, groups := [] }]
      "u" "a" "c" (fun _ => true) "j1" 0 []).2.1 (by decide) (by decide)
  · obtain ⟨job, hj, _, htot, hp, _, _⟩ := (startPosting_spec
      [{ id := "s1", userId := "u", status := "ACTIVE", isFrozen := false,
         sessionString := some "x", name := some "n", phone := none,
         groups := [{ id := "g1", telegramId := "t1", title := some "G",
                      isActive := true, isSkipped := false, lastPostAt := none }] }]
      "u" "a" "c" (fun _ => true) "j1" 0 []).2.2 (by decide)
    exact ⟨job, hj, by rw [htot]; decide, hp⟩

/-- One engine write never clears `stopRequested`. -/
theorem stopRequested_mono_one (j : PostingJob) (m : JobMutation)
    (h : j.stopRequested = true) : (applyMutation j m).stopRequested = true := by
  cases m <;> simp [applyMutation, h] <;> (split <;> simp [h])

/-- A sequence of engine writes never clears `stopRequested`. -/
theorem stopRequested_mono (ms : List JobMutation) (j : PostingJob)
    (h : j.stopRequested = true) : (ms.foldl applyMutation j).stopRequested = true := by
  induction ms generalizing j with
  | nil => exact h
  | cons m ms ih => exact ih _ (stopRequested_mono_one j m h)

/-- Once the (monotone) stop flag is observed true at poll point `k`, a driver
runs no iteration with index ≥ `k`. -/
theorem driverRunIndices_lt (stopAt : Nat → Bool)
    (hmono : ∀ a b, a ≤ b → stopAt a = true → stopAt b = true)
    (k : Nat) (hk : stopAt k = true) :
    ∀ (gs : List GroupInfo) (i : Nat), ∀ x ∈ driverRunIndices stopAt gs i, x < k := by
  intro gs
  induction gs with
  | nil =>
      intro i x hx
      simp [driverRunIndices] at hx
  | cons g gs ih =>
      intro i x hx
      by_cases hi : stopAt i = true
      · simp [driverRunIndices, hi] at hx
      · rw [driverRunIndices, if_neg hi] at hx
        rcases List.mem_cons.mp hx with hx | hx
        · subst hx
          by_contra hlt
          exact hi (hmono k x (by omega) hk)
        · exact ih (i + 1) x hx

/-- C6: `stopJob` sets the job's `stopRequested` flag; no engine write ever
clears it afterwards; calling `stopJob` again is idempotent; once the flag is
observed by a driver, no iteration at or after that poll point runs (so no
further send is attempted); and the round loop, on observing the flag,
terminates the job with status `stopped` and `endTime` recorded. -/
theorem stopJob_spec (reg : JobRegistry) (jobId : String) (j : PostingJob)
    (ms : List JobMutation) (stopAt : Nat → Bool) (gs : List GroupInfo) (i k t : Nat) :
    (∀ p ∈ stopJobReg reg jobId, p.1 = jobId → p.2.stopRequested = true) ∧
    (j.stopRequested = true → (ms.foldl applyMutation j).stopRequested = true) ∧
    stopJobReg (stopJobReg reg jobId) jobId = stopJobReg reg jobId ∧
    ((∀ a b, a ≤ b → stopAt a = true → stopAt b = true) → stopAt k = true →
      ∀ x ∈ driverRunIndices stopAt gs i, x < k) ∧
    (j.stopRequested = true →
      ∃ j2, loopStopCheck j t = some j2 ∧ j2.status = "stopped" ∧
        j2.endTime = some t ∧ j2.stopRequested = true) := by
  refine ⟨?_, stopRequested_mono ms j, ?_, fun hmono hk => driverRunIndices_lt stopAt hmono k hk gs i, ?_⟩
  · intro p hp hpid
    unfold stopJobReg at hp
    rcases List.mem_map.mp hp with ⟨q, hq, heq⟩
    by_cases hqid : q.1 = jobId
    · rw [if_pos hqid] at heq
      rw [← heq]
    · rw [if_neg hqid] at heq
      rw [← heq] at hpid
      exact absurd hpid hqid
  · unfold stopJobReg
    rw [List.map_map]
    have hff : ((fun p : String × PostingJob =>
          if p.1 = jobId then (p.1, { p.2 with stopRequested := true }) else p) ∘
        (fun p : String × PostingJob =>
          if p.1 = jobId then (p.1, { p.2 with stopRequested := true }) else p)) =
        (fun p : String × PostingJob =>
          if p.1 = jobId then (p.1, { p.2 with stopRequested := true }) else p) := by
      funext p
      by_cases h : p.1 = jobId <;> simp [h]
    rw [hff]
  · intro h
    exact ⟨applyMutation j (.markStopped t), by simp [loopStopCheck, h], rfl, rfl, h⟩

/-- Witness for `stopJob_spec`: a concrete stopped job stays stopped across
writes, a second `stopJob` is a no-op, a driver that observes stop at poll
point 2 runs only indices below 2, and the loop check marks the job stopped
with its end time. -/
theorem stopJob_spec_witness :
    stopJobReg (stopJobReg
        [("j1",
          { id := "j1", adId := "a", adContent := "c", userId := "u", status := "running",
            startTime := 0, endTime := none, totalGroups := 2, postedGroups := 0,
            failedGroups := 0, skippedGroups := 0, roundsCompleted := 0, logs := [],
            stopRequested := false, pauseRequested := false })] "j1") "j1"
      = stopJobReg
        [("j1",
          { id := "j1", adId := "a", adContent := "c", userId := "u", status := "running",
            startTime := 0, endTime := none, totalGroups := 2, postedGroups := 0,
            failedGroups := 0, skippedGroups := 0, roundsCompleted := 0, logs := [],
            stopRequested := false, pauseRequested := false })] "j1" ∧
    ([JobMutation.requestPause, JobMutation.incPosted].foldl applyMutation
        { id := "j1", adId := "a", adContent := "c", userId := "u", status := "running",
          startTime := 0, endTime := none, totalGroups := 2, postedGroups := 0,
          failedGroups := 0, skippedGroups := 0, roundsCompleted := 0, logs := [],
          stopRequested := true, pauseRequested := false }).stopRequested = true ∧
    (0 : Nat) < 2 ∧
    (∃ j2, loopStopCheck
        { id := "j1", adId := "a", adContent := "c", userId := "u", status := "running",
          startTime := 0, endTime := none, totalGroups := 2, postedGroups := 0,
          failedGroups := 0, skippedGroups := 0, roundsCompleted := 0, logs := [],
          stopRequested := true, pauseRequested := false } 42 = some j2 ∧
      j2.status = "stopped" ∧ j2.endTime = some 42 ∧ j2.stopRequested = true) := by
  refine ⟨?_, ?_, ?_, ?_⟩
  · exact (stopJob_spec
      [("j1",
        { id := "j1", adId := "a", adContent := "c", userId := "u", status := "running",
          startTime := 0, endTime := none, totalGroups := 2, postedGroups := 0,
          failedGroups := 0, skippedGroups := 0, roundsCompleted := 0, logs := [],
          stopRequested := false, pauseRequested := false })] "j1"
      { id := "j1", adId := "a", adContent := "c", userId := "u", status := "running",
        startTime := 0, endTime := none, totalGroups := 2, postedGroups := 0,
        failedGroups := 0, skippedGroups := 0, roundsCompleted := 0, logs := [],
        stopRequested := false, pauseRequested := false } [] (fun _ => false) [] 0 0 0).2.2.1
  · exact (stopJob_spec [] "j1"
      { id := "j1", adId := "a", adContent := "c", userId := "u", status := "running",
        startTime := 0, endTime := none, totalGroups := 2, postedGroups := 0,
        failedGroups := 0, skippedGroups := 0, roundsCompleted := 0, logs := [],
        stopRequested := true, pauseRequested := false }
      [JobMutation.requestPause, JobMutation.incPosted] (fun _ => false) [] 0 0 0).2.1 rfl
  · exact (stopJob_spec [] "j1"
      { id := "j1", adId := "a", adContent := "c", userId := "u", status := "running",
        startTime := 0, endTime := none, totalGroups := 2, postedGroups := 0,
        failedGroups := 0, skippedGroups := 0, roundsCompleted := 0, logs := [],
        stopRequested := true, pauseRequested := false }
      [] (fun n => decide (2 ≤ n))
      [{ id := "g1", telegramId := "t1", name := "G", sessionId := "s1",
         sessionName := "S", lastPostAt := none },
       { id := "g2", telegramId := "t2", name := "G2", sessionId := "s1",
         sessionName := "S", lastPostAt := none },
       { id := "g3", telegramId := "t3", name := "G3", sessionId := "s1",
         sessionName := "S", lastPostAt := none }] 0 2 0).2.2.2.1
      (by
        intro a b hab ha
        rw [decide_eq_true_iff] at ha ⊢
        omega)
      (by decide) 0 (by decide)
  · exact (stopJob_spec [] "j1"
      { id := "j1", adId := "a", adContent := "c", userId := "u", status := "running",
        startTime := 0, endTime := none, totalGroups := 2, postedGroups := 0,
        failedGroups := 0, skippedGroups := 0, roundsCompleted := 0, logs := [],
        stopRequested := true, pauseRequested := false }
      [] (fun _ => false) [] 0 0 42).2.2.2.2 rfl

/-- Unfolding step of the skip-duplicates bulk insert. -/
theorem createManySkipDup_cons (acc : List StoredGroup) (r : StoredGroup)
    (rows : List StoredGroup) :
    createManySkipDup acc (r :: rows) =
      createManySkipDup
        (if (acc.map (fun g => g.telegramId)).contains r.telegramId then acc
         else acc ++ [r]) rows := rfl

/-- Ids already stored survive the skip-duplicates bulk insert. -/
theorem tid_mem_createMany_left (rows : List StoredGroup) (acc : List StoredGroup)
    (x : String) (hx : x ∈ acc.map (fun g => g.telegramId)) :
    x ∈ (createManySkipDup acc rows).map (fun g => g.telegramId) := by
  induction rows generalizing acc with
  | nil => exact hx
  | cons r rows ih =>
      rw [createManySkipDup_cons]
      apply ih
      by_cases hc : (acc.map (fun g => g.telegramId)).contains r.telegramId
      · rw [if_pos hc]
        exact hx
      · rw [if_neg hc, List.map_append]
        exact List.mem_append_left _ hx

/-- Every inserted row's id is present after the skip-duplicates bulk insert. -/
theorem tid_mem_createMany_row (rows : List StoredGroup) (acc : List StoredGroup)
    (r : StoredGroup) (hr : r ∈ rows) :
    r.telegramId ∈ (createManySkipDup acc rows).map (fun g => g.telegramId) := by
  induction rows generalizing acc with
  | nil => cases hr
  | cons r0 rows ih =>
      rw [createManySkipDup_cons]
      rcases List.mem_cons.mp hr with hr | hr
      · subst hr
        apply tid_mem_createMany_left
        by_cases hc : (acc.map (fun g => g.telegramId)).contains r.telegramId
        · rw [if_pos hc]
          simpa using hc
        · rw [if_neg hc, List.map_append]
          exact List.mem_append_right _ (by simp)
      · exact ih _ hr

/-- The skip-duplicates bulk insert preserves distinctness of stored ids. -/
theorem tid_nodup_createMany (rows : List StoredGroup) (acc : List StoredGroup)
    (h : (acc.map (fun g => g.telegramId)).Nodup) :
    ((createManySkipDup acc rows).map (fun g => g.telegramId)).Nodup := by
  induction rows generalizing acc with
  | nil => exact h
  | cons r rows ih =>
      rw [createManySkipDup_cons]
      apply ih
      by_cases hc : (acc.map (fun g => g.telegramId)).contains r.telegramId
      · rw [if_pos hc]
        exact h
      · rw [if_neg hc, List.map_append]
        rw [List.nodup_append]
        refine ⟨h, by simp, ?_⟩
        intro x hx
        simp only [List.map_cons, List.map_nil, List.mem_singleton]
        intro hxr
        subst hxr
        exact hc (by simpa using hx)

/-- After one sync, the id of every snapshot is stored. -/
theorem tid_mem_sync (stored : List StoredGroup) (snaps : List GroupSnap) :
    ∀ g ∈ snaps, g.telegramId ∈ (syncGroupsStored stored snaps).map (fun r => r.telegramId) := by
  intro g hg
  unfold syncGroupsStored
  by_cases hemp : (snaps.filter
      (fun g => !(stored.map (fun r => r.telegramId)).contains g.telegramId)).isEmpty
  · rw [if_pos hemp]
    rw [List.isEmpty_iff, List.filter_eq_nil_iff] at hemp
    have := hemp g hg
    simpa using this
  · rw [if_neg hemp]
    by_cases hc : g.telegramId ∈ stored.map (fun r => r.telegramId)
    · exact tid_mem_createMany_left _ _ _ hc
    · have hmem : g ∈ snaps.filter
          (fun g => !(stored.map (fun r => r.telegramId)).contains g.telegramId) := by
        rw [List.mem_filter]
        exact ⟨hg, by simpa using hc⟩
      have : snapToRow g ∈ (snaps.filter
          (fun g => !(stored.map (fun r => r.telegramId)).contains g.telegramId)).map snapToRow :=
        List.mem_map_of_mem _ hmem
      exact tid_mem_createMany_row _ _ _ this

/-- A sync whose snapshots are all already stored is the identity. -/
theorem sync_noNew (stored : List StoredGroup) (snaps : List GroupSnap)
    (h : ∀ g ∈ snaps, g.telegramId ∈ stored.map (fun r => r.telegramId)) :
    syncGroupsStored stored snaps = stored := by
  have hnil : snaps.filter
      (fun g => !(stored.map (fun r => r.telegramId)).contains g.telegramId) = [] := by
    rw [List.filter_eq_nil_iff]
    intro a ha
    simp [h a ha]
  simp only [syncGroupsStored]
  rw [hnil]
  rfl

/-- C8: group synchronisation is idempotent in the platform group id — running
the sync twice with the same snapshots leaves the stored `Group` set identical
to running it once — and it never inserts an id twice (distinctness of stored
`telegramId`s is preserved, by the skip on the unique key). -/
theorem syncGroups_spec (stored : List StoredGroup) (snaps : List GroupSnap) :
    syncGroupsStored (syncGroupsStored stored snaps) snaps = syncGroupsStored stored snaps ∧
    ((stored.map (fun g => g.telegramId)).Nodup →
      ((syncGroupsStored stored snaps).map (fun g => g.telegramId)).Nodup) := by
  constructor
  · exact sync_noNew _ _ (tid_mem_sync stored snaps)
  · intro h
    unfold syncGroupsStored
    by_cases hemp : (snaps.filter
        (fun g => !(stored.map (fun r => r.telegramId)).contains g.telegramId)).isEmpty
    · rw [if_pos hemp]
      exact h
    · rw [if_neg hemp]
      exact tid_nodup_createMany _ _ h

/-- Witness for `syncGroups_spec`: syncing two snapshots that share one
`telegramId` into an empty store keeps the stored ids distinct. -/
theorem syncGroups_spec_witness :
    ((syncGroupsStored []
        [{ telegramId := "t1", title := "A", username := none, kind := "GROUP",
           memberCount := none },
         { telegramId := "t1", title := "B", username := none, kind := "GROUP",
           memberCount := none }]).map (fun g => g.telegramId)).Nodup :=
  (syncGroups_spec []
    [{ telegramId := "t1", title := "A", username := none, kind := "GROUP",
       memberCount := none },
     { telegramId := "t1", title := "B", username := none, kind := "GROUP",
       memberCount := none }]).2 (by simp)

/-- Unfolding step of `rankIn`. -/
theorem rankIn_cons (gid : String) (t : GroupRow) (ts : List GroupRow) :
    rankIn gid (t :: ts) =
      if t.id = gid then some 0 else (rankIn gid ts).map (fun k => k + 1) := rfl

/-- A missing id has no rank. -/
theorem rankIn_eq_none (gid : String) (ts : List GroupRow)
    (h : gid ∉ ts.map (fun t => t.id)) : rankIn gid ts = none := by
  induction ts with
  | nil => rfl
  | cons t ts ih =>
      simp only [List.map_cons, List.mem_cons] at h
      push_neg at h
      rw [rankIn_cons, if_neg (fun he => h.1 he.symm), ih h.2]
      rfl

/-- In a list with distinct ids, the id of the `k`-th row has rank `k`. -/
theorem rankIn_get (l : List GroupRow) (h : (l.map (fun t => t.id)).Nodup) :
    ∀ (k : Nat) (hk : k < l.length), rankIn (l.get ⟨k, hk⟩).id l = some k := by
  induction l with
  | nil =>
      intro k hk
      exact absurd hk (by simp)
  | cons t ts ih =>
      intro k hk
      rw [List.map_cons, List.nodup_cons] at h
      obtain ⟨hhead, htail⟩ := h
      cases k with
      | zero =>
          show rankIn ((t :: ts).get ⟨0, hk⟩).id (t :: ts) = some 0
          rw [show ((t :: ts).get ⟨0, hk⟩) = t from rfl, rankIn_cons, if_pos rfl]
      | succ k =>
          have hg : ((t :: ts).get ⟨k + 1, hk⟩) = ts.get ⟨k, by simpa using hk⟩ := rfl
          rw [hg, rankIn_cons]
          have hne : t.id ≠ (ts.get ⟨k, by simpa using hk⟩).id := by
            intro he
            exact hhead (he ▸ List.mem_map_of_mem _ (List.get_mem ts _ _))
          rw [if_neg hne, ih htail k (by simpa using hk)]
          rfl

/-- Evaluation of `promoteAssign` at a ranked id. -/
theorem promoteAssign_eq_some (top : List GroupRow) (i : Nat) (g : GroupRow) (k : Nat)
    (h : rankIn g.id top = some k) :
    promoteAssign top i g = { g with isPriority := true, priorityOrder := some (i + k + 1) } := by
  unfold promoteAssign
  rw [h]

/-- Evaluation of `promoteAssign` at an unranked id. -/
theorem promoteAssign_eq_none (top : List GroupRow) (i : Nat) (g : GroupRow)
    (h : rankIn g.id top = none) : promoteAssign top i g = g := by
  unfold promoteAssign
  rw [h]

/-- `promoteAssign` never changes the id. -/
theorem promoteAssign_id (top : List GroupRow) (i : Nat) (g : GroupRow) :
    (promoteAssign top i g).id = g.id := by
  cases hr : rankIn g.id top with
  | none => rw [promoteAssign_eq_none top i g hr]
  | some k => rw [promoteAssign_eq_some top i g k hr]

/-- The promotion loop equals a single pointwise pass when the top list has
distinct ids. -/
theorem promoteTop_eq_map (top : List GroupRow) :
    ∀ (i : Nat) (acc : List GroupRow), (top.map (fun t => t.id)).Nodup →
      promoteTop acc top i = acc.map (promoteAssign top i) := by
  induction top with
  | nil =>
      intro i acc _
      have hfun : promoteAssign [] i = fun g => g := by
        funext g
        rfl
      rw [hfun]
      show acc = acc.map (fun g => g)
      rw [List.map_id']
  | cons t ts ih =>
      intro i acc hnd
      rw [List.map_cons, List.nodup_cons] at hnd
      obtain ⟨hhead, htail⟩ := hnd
      rw [promoteTop, ih (i + 1) _ htail]
      unfold updateById
      rw [List.map_map]
      have hfun : (promoteAssign ts (i + 1) ∘ fun g =>
          if g.id = t.id then { g with isPriority := true, priorityOrder := some (i + 1) }
          else g) = promoteAssign (t :: ts) i := by
        funext g
        by_cases hid : g.id = t.id
        · simp only [Function.comp_apply, if_pos hid]
          have h1 : rankIn
              ({ g with isPriority := true, priorityOrder := some (i + 1) } : GroupRow).id ts
                = none := by
            show rankIn g.id ts = none
            rw [hid]
            exact rankIn_eq_none t.id ts hhead
          have h2 : rankIn g.id (t :: ts) = some 0 := by
            rw [rankIn_cons, if_pos hid.symm]
          rw [promoteAssign_eq_none ts (i + 1) _ h1, promoteAssign_eq_some (t :: ts) i g 0 h2]
        · simp only [Function.comp_apply, if_neg hid]
          have h2 : rankIn g.id (t :: ts) = (rankIn g.id ts).map (fun k => k + 1) := by
            rw [rankIn_cons, if_neg (fun he => hid he.symm)]
          cases hr : rankIn g.id ts with
          | none =>
              rw [promoteAssign_eq_none ts (i + 1) g hr,
                promoteAssign_eq_none (t :: ts) i g (by rw [h2, hr]; rfl)]
          | some k =>
              rw [promoteAssign_eq_some ts (i + 1) g k hr,
                promoteAssign_eq_some (t :: ts) i g (k + 1) (by rw [h2, hr]; rfl)]
              have heq : i + 1 + k + 1 = i + (k + 1) + 1 := by omega
              rw [heq]
      rw [hfun]

/-- The ids of the recomputed top list are distinct when the session's group
ids are. -/
theorem topGroups_id_nodup (gs : List GroupRow)
    (h : (gs.map (fun g => g.id)).Nodup) :
    ((topGroups gs).map (fun g => g.id)).Nodup := by
  have h1 : ((gs.filter (fun g => g.isActive && !g.isSkipped)).map (fun g => g.id)).Nodup :=
    List.Nodup.sublist (List.Sublist.map _ (List.filter_sublist gs)) h
  have h2 : ((List.insertionSort priorityGE
      (gs.filter (fun g => g.isActive && !g.isSkipped))).map (fun g => g.id)).Nodup :=
    (((List.perm_insertionSort priorityGE _).map _).nodup_iff).mpr h1
  unfold topGroups
  rw [List.map_take]
  exact List.Nodup.sublist (List.take_sublist _ _) h2

/-- A row of the recomputed top list is a row of the session. -/
theorem topGroups_mem (gs : List GroupRow) (g : GroupRow)
    (h : g ∈ topGroups gs) : g ∈ gs := by
  unfold topGroups at h
  have h1 := List.take_subset _ _ h
  have h2 := (List.perm_insertionSort priorityGE _).mem_iff.mp h1
  exact List.mem_of_mem_filter h2

/-- C9 counterexample: a session whose highest-activity group is inactive —
the recompute demotes it and gives rank 1 to the lower-activity active group,
so it does not mark the top of *all* the session's groups by
`(activityScore desc, memberCount desc)`. -/
theorem recalcPriority_counterexample :
    ((recalculatePriorityGroups
        [{ id := "g1", isActive := false, isSkipped := false, isPriority := false,
           priorityOrder := none, activityScore := 100, memberCount := 10 },
         { id := "g2", isActive := true, isSkipped := false, isPriority := false,
           priorityOrder := none, activityScore := 1, memberCount := 5 }]).map
      (fun g => (g.isPriority, g.priorityOrder))) = [(false, none), (true, some 1)] ∧
    (1 : Int) < 100 := by
  decide

/-- C9 (amended): for a session with distinct group ids, the recompute ranks
the *active, unskipped* groups by `(activityScore desc, memberCount desc)`,
keeps the top (at most) 50 of them, marks exactly those as priority with
`priorityOrder = 1..` in rank order, and demotes every other group of the
session (`isPriority = false`, `priorityOrder` cleared), leaving the id set
unchanged. -/
theorem recalcPriority_spec (gs : List GroupRow)
    (h : (gs.map (fun g => g.id)).Nodup) :
    List.Sorted priorityGE (topGroups gs) ∧
    (topGroups gs).length = min 50 (gs.filter (fun g => g.isActive && !g.isSkipped)).length ∧
    (recalculatePriorityGroups gs).map (fun g => g.id) = gs.map (fun g => g.id) ∧
    (∀ (k : Nat) (hk : k < (topGroups gs).length),
      ∃ g ∈ recalculatePriorityGroups gs,
        g.id = ((topGroups gs).get ⟨k, hk⟩).id ∧ g.isPriority = true ∧
        g.priorityOrder = some (k + 1)) ∧
    (∀ g ∈ recalculatePriorityGroups gs,
      g.id ∉ (topGroups gs).map (fun t => t.id) →
        g.isPriority = false ∧ g.priorityOrder = none) := by
  have htopnd := topGroups_id_nodup gs h
  have hre : recalculatePriorityGroups gs
      = gs.map (fun g => promoteAssign (topGroups gs) 0 (demoteOne g)) := by
    rw [recalculatePriorityGroups, promoteTop_eq_map _ 0 _ htopnd]
    unfold demoteAll
    rw [List.map_map]
    rfl
  refine ⟨?_, ?_, ?_, ?_, ?_⟩
  · exact List.Pairwise.sublist (List.take_sublist _ _)
      (List.sorted_insertionSort priorityGE _)
  · unfold topGroups
    rw [List.length_take, List.length_insertionSort]
  · rw [hre, List.map_map]
    apply List.map_congr_left
    intro g _
    show (promoteAssign (topGroups gs) 0 (demoteOne g)).id = g.id
    rw [promoteAssign_id]
    rfl
  · intro k hk
    have ht : (topGroups gs).get ⟨k, hk⟩ ∈ topGroups gs := List.get_mem _ _ _
    have htg : (topGroups gs).get ⟨k, hk⟩ ∈ gs := topGroups_mem gs _ ht
    have hrk : rankIn (demoteOne ((topGroups gs).get ⟨k, hk⟩)).id (topGroups gs) = some k :=
      rankIn_get (topGroups gs) htopnd k hk
    refine ⟨promoteAssign (topGroups gs) 0 (demoteOne ((topGroups gs).get ⟨k, hk⟩)),
      ?_, ?_, ?_, ?_⟩
    · rw [hre]
      exact List.mem_map_of_mem _ htg
    · rw [promoteAssign_id]
      rfl
    · rw [promoteAssign_eq_some _ 0 _ k hrk]
    · rw [promoteAssign_eq_some _ 0 _ k hrk]
      show some (0 + k + 1) = some (k + 1)
      rw [Nat.zero_add]
  · intro g hg hnot
    rw [hre] at hg
    rcases List.mem_map.mp hg with ⟨g0, _, heq⟩
    have hid : g.id = g0.id := by
      rw [← heq, promoteAssign_id]
      rfl
    have hnone : rankIn (demoteOne g0).id (topGroups gs) = none := by
      apply rankIn_eq_none
      show g0.id ∉ (topGroups gs).map (fun t => t.id)
      rw [← hid]
      exact hnot
    rw [← heq, promoteAssign_eq_none _ 0 _ hnone]
    exact ⟨rfl, rfl⟩

/-- Witness for `recalcPriority_spec`: on a concrete two-group session with
distinct ids the recomputed top list has length `min 50 2` and the id set is
preserved. -/
theorem recalcPriority_spec_witness :
    (topGroups
      [{ id := "g1", isActive := true, isSkipped := false, isPriority := false,
         priorityOrder := none, activityScore := 5, memberCount := 10 },
       { id := "g2", isActive := true, isSkipped := false, isPriority := false,
         priorityOrder := none, activityScore := 9, memberCount := 5 }]).length
      = min 50
        (([{ id := "g1", isActive := true, isSkipped := false, isPriority := false,
             priorityOrder := none, activityScore := 5, memberCount := 10 },
           { id := "g2", isActive := true, isSkipped := false, isPriority := false,
             priorityOrder := none, activityScore := 9, memberCount := 5 }] : List GroupRow).filter
          (fun g => g.isActive && !g.isSkipped)).length ∧
    (recalculatePriorityGroups
      [{ id := "g1", isActive := true, isSkipped := false, isPriority := false,
         priorityOrder := none, activityScore := 5, memberCount := 10 },
       { id := "g2", isActive := true, isSkipped := false, isPriority := false,
         priorityOrder := none, activityScore := 9, memberCount := 5 }]).map (fun g => g.id)
      = ([{ id := "g1", isActive := true, isSkipped := false, isPriority := false,
            priorityOrder := none, activityScore := 5, memberCount := 10 },
          { id := "g2", isActive := true, isSkipped := false, isPriority := false,
            priorityOrder := none, activityScore := 9, memberCount := 5 }] : List GroupRow).map
        (fun g => g.id) :=
  ⟨(recalcPriority_spec
      [{ id := "g1", isActive := true, isSkipped := false, isPriority := false,
         priorityOrder := none, activityScore := 5, memberCount := 10 },
       { id := "g2", isActive := true, isSkipped := false, isPriority := false,
         priorityOrder := none, activityScore := 9, memberCount := 5 }] (by decide)).2.1,
   (recalcPriority_spec
      [{ id := "g1", isActive := true, isSkipped := false, isPriority := false,
         priorityOrder := none, activityScore := 5, memberCount := 10 },
       { id := "g2", isActive := true, isSkipped := false, isPriority := false,
         priorityOrder := none, activityScore := 9, memberCount := 5 }] (by decide)).2.2.1⟩

end Reklama
